import Mathlib

/-!
Verification development for the `generator_helper` package: a shallow
embedding in Lean 4 of the test-case generation/verification engine
(`subtask_gen.py`), the standard-I/O redirection adapter (`sol_dec.py`)
and the bulk test-case file writer (`file_utils.py`), together with
theorems settling the specified behavioural properties.
-/

namespace GeneratorHelper

/-- Model of the Python exception values that flow through the runner:
`TestcaseInvalidError` (from `exceptions.py`) carrying its message, and any
other exception class, identified here by its class name rendered as a
string.  The runner's control flow only distinguishes these two cases. -/
inductive PyExc where
  | tci (msg : String)
  | other (className : String)
deriving DecidableEq

/-- Model of a raised `TestcaseInvalidError` as produced by
`assert_testcase` in `subtask_gen.py`: its message string and its
`__cause__` (the chained exception, set by `raise ... from from_`). -/
structure TestcaseInvalidError where
  message : String
  cause : Option PyExc
deriving DecidableEq

/-- Embedding of `assert_testcase` (subtask_gen.py, lines 48-81).  The
Python function inspects the traceback to recover the literal source line
of the failing call site; that call-site line is not a value computable
from the arguments, so it enters the model as the extra parameter
`caller_statement`.  Truthiness of the `statement` argument is modelled by
its `__bool__` result.  A raised exception is the `Except.error` case. -/
def assert_testcase (statement : Bool) (msg : String) (caller_statement : String)
    (from_ : Option PyExc) : Except TestcaseInvalidError Unit :=
  if statement then
    Except.ok ()
  else
    Except.error
      { message := msg ++ " <- Assertion failed at: \x27" ++ caller_statement ++ "\x27"
        cause := from_ }

/-- Modelled from the spec: the underlying general-purpose pseudo-random
generator is CPython's `random.Random` (standard library, not part of this
repository's sources).  The spec requires only that the produced sequence
is fully determined by the seed and by the internal generator state; we
model the opaque internal state as a natural number, with a deterministic
seeding function, a deterministic state-transition function applied by
every draw, and an output function.  `randomSeedState` models
`Random.seed(s)`. -/
def randomSeedState (seed : Int) : Nat :=
  (seed.natAbs * 1103515245 + 12345) % 2 ^ 31

/-- Modelled from the spec: the deterministic state transition performed by
one draw from the underlying generator. -/
def randomNext (st : Nat) : Nat :=
  (st * 1103515245 + 12345) % 2 ^ 31

/-- Modelled from the spec: the value produced by one draw, a function of
the pre-draw internal state. -/
def randomOutput (st : Nat) : Nat :=
  st / 2 ^ 16

/-- Embedding of class `ReproducibleRandom` (subtask_gen.py, lines 21-45):
a `random.Random` subclass holding `_seed`, the current generator state
(mutable, advanced by draws) and `initial_state`, the snapshot taken by
`getstate()` immediately after construction. -/
structure ReproducibleRandom where
  seedArg : Option Int
  state : Nat
  initial_state : Nat
deriving DecidableEq

/-- Embedding of `ReproducibleRandom.__init__` with an integer seed: seed
the underlying generator, then snapshot `initial_state := self.getstate()`. -/
def ReproducibleRandom.new (seed : Int) : ReproducibleRandom :=
  let st := randomSeedState seed
  { seedArg := some seed, state := st, initial_state := st }

/-- Embedding of `ReproducibleRandom.__init__` with `seed=None`: the
generator is initialised from system entropy, modelled as an explicit
`entropyState` input; `initial_state` snapshots that state. -/
def ReproducibleRandom.newUnseeded (entropyState : Nat) : ReproducibleRandom :=
  { seedArg := none, state := entropyState, initial_state := entropyState }

/-- One draw of randomness from the generator (any stateful method of
`random.Random`, e.g. `randint`): returns the drawn value and the instance
with its internal state advanced.  Only `state` changes. -/
def ReproducibleRandom.draw (r : ReproducibleRandom) : Nat × ReproducibleRandom :=
  (randomOutput r.state, { r with state := randomNext r.state })

/-- Embedding of `ReproducibleRandom.back_to_initial` (subtask_gen.py,
lines 43-45): `self.setstate(self.initial_state)`. -/
def ReproducibleRandom.back_to_initial (r : ReproducibleRandom) : ReproducibleRandom :=
  { r with state := r.initial_state }

/-- The sequence of the next `n` values the generator would produce. -/
def drawSeq (r : ReproducibleRandom) : Nat → List Nat
  | 0 => []
  | n + 1 =>
    let p := r.draw
    p.1 :: drawSeq p.2 n

/-- An operation performed on a `ReproducibleRandom` instance after
construction: drawing randomness, or restoring the initial state. -/
inductive ROp where
  | draw
  | restore
deriving DecidableEq

/-- Apply one post-construction operation to an instance. -/
def applyOp (r : ReproducibleRandom) : ROp → ReproducibleRandom
  | ROp.draw => r.draw.2
  | ROp.restore => r.back_to_initial

/-- Apply a sequence of post-construction operations, left to right. -/
def applyOps : ReproducibleRandom → List ROp → ReproducibleRandom
  | r, [] => r
  | r, op :: ops => applyOps (applyOp r op) ops

/-- No post-construction operation writes the `initial_state` field. -/
theorem applyOp_initial_state (r : ReproducibleRandom) (op : ROp) :
    (applyOp r op).initial_state = r.initial_state := by
  cases op <;> simp [applyOp, ReproducibleRandom.draw, ReproducibleRandom.back_to_initial]

/-- No sequence of post-construction operations writes `initial_state`. -/
theorem applyOps_initial_state (r : ReproducibleRandom) (ops : List ROp) :
    (applyOps r ops).initial_state = r.initial_state := by
  induction ops generalizing r with
  | nil => rfl
  | cons op ops ih => simpa [applyOps, applyOp_initial_state] using ih (applyOp r op)

/-- No post-construction operation writes the `seedArg` field. -/
theorem applyOps_seedArg (r : ReproducibleRandom) (ops : List ROp) :
    (applyOps r ops).seedArg = r.seedArg := by
  induction ops generalizing r with
  | nil => rfl
  | cons op ops ih =>
    have hstep : (applyOp r op).seedArg = r.seedArg := by
      cases op <;> simp [applyOp, ReproducibleRandom.draw, ReproducibleRandom.back_to_initial]
    simpa [applyOps, hstep] using ih (applyOp r op)

/-- The sequence of future draws is a function of the current generator
state alone. -/
theorem drawSeq_eq_of_state (n : Nat) :
    ∀ r s : ReproducibleRandom, r.state = s.state → drawSeq r n = drawSeq s n := by
  induction n with
  | zero => intro r s _; rfl
  | succ n ih =>
    intro r s h
    simp only [drawSeq, ReproducibleRandom.draw, h]
    exact congrArg _ (ih _ _ (by simp [h]))

/-- The terminal outcome of one call to `runner(testcase_index)`
(subtask_gen.py, lines 121-181): the returned `(testcase, answer)` pair, a
raised `GeneratorRuntimeError` (carrying its message, the `rnd` object's
`initial_state`, and the chained `__cause__`), the exhaustion
`RuntimeError` (whose message reports `retry_limit` attempts), or
divergence (the `while` loop never terminating, possible only when the
modelling fuel runs out, i.e. for an unbounded `retry_limit`). -/
inductive RunResult where
  | success (testcase answer : String)
  | generatorRuntimeError (message : String) (rndInitialState : Nat) (cause : PyExc)
  | exhausted (retryLimit : Int)
  | divergent
deriving DecidableEq

/-- The message interpolated into a raised `GeneratorRuntimeError`
(subtask_gen.py, lines 171-173): it includes the attempt number
`retry_count + 1` and `rnd.initial_state`. -/
def generatorRuntimeErrorMessage (attempt : Nat) (initialState : Nat) : String :=
  "Unexpected error during generation/verification on attempt " ++ toString attempt ++
    ". Random generator initial state = " ++ toString initialState

/-- Outcome of a `runner` call together with the number of generator
invocations and verifier invocations it performed. -/
structure RunOutcome where
  result : RunResult
  genCalls : Nat
  verCalls : Nat
deriving DecidableEq

/-- Embedding of the `while retry_count != retry_limit` loop of `runner`
(subtask_gen.py, lines 141-181).  The Python generator and verifier are
arbitrary callables, possibly closing over mutable state, and the
generator receives a fresh unseeded `ReproducibleRandom` per attempt; so
their per-call behaviour is modelled as a function of the attempt number:
`genB n` is the outcome of `generator(testcase_index, rnd)` on attempt `n`
and `verB n t` the outcome of `verifier(testcase_index, t)` on attempt
`n`.  `entropy n` is the system-entropy state from which attempt `n`'s
`ReproducibleRandom()` is initialised.  A `TestcaseInvalidError` from
either callable is caught and retried after `retry_count += 1`; any other
exception is wrapped in a `GeneratorRuntimeError` and raised at once.
`fuel` bounds the number of remaining loop iterations the model can
unfold; exhausting it yields `divergent`. -/
def runnerLoop (genB : Nat → Except PyExc String)
    (verB : Nat → String → Except PyExc String)
    (entropy : Nat → Nat) (retryLimit : Int) :
    Nat → Nat → Nat → Nat → RunOutcome
  | 0, _, g, v => ⟨RunResult.divergent, g, v⟩
  | fuel + 1, retryCount, g, v =>
    if (retryCount : Int) = retryLimit then
      ⟨RunResult.exhausted retryLimit, g, v⟩
    else
      let rnd := ReproducibleRandom.newUnseeded (entropy (retryCount + 1))
      match genB (retryCount + 1) with
      | Except.error (PyExc.tci _) =>
        runnerLoop genB verB entropy retryLimit fuel (retryCount + 1) (g + 1) v
      | Except.error e =>
        ⟨RunResult.generatorRuntimeError
            (generatorRuntimeErrorMessage (retryCount + 1) rnd.initial_state)
            rnd.initial_state e,
          g + 1, v⟩
      | Except.ok tc =>
        match verB (retryCount + 1) tc with
        | Except.ok ans => ⟨RunResult.success tc ans, g + 1, v + 1⟩
        | Except.error (PyExc.tci _) =>
          runnerLoop genB verB entropy retryLimit fuel (retryCount + 1) (g + 1) (v + 1)
        | Except.error e =>
          ⟨RunResult.generatorRuntimeError
              (generatorRuntimeErrorMessage (retryCount + 1) rnd.initial_state)
              rnd.initial_state e,
            g + 1, v + 1⟩

/-- One call `run(testcase_index)`: enter the loop with `retry_count = 0`
and no invocations performed yet. -/
def runner (genB : Nat → Except PyExc String)
    (verB : Nat → String → Except PyExc String)
    (entropy : Nat → Nat) (retryLimit : Int) (fuel : Nat) : RunOutcome :=
  runnerLoop genB verB entropy retryLimit fuel 0 0 0

/-- Loop lemma: if the generator always yields a test case and the
verifier rejects every attempt with `TestcaseInvalidError`, then starting
at `retry_count = rc` with `rc + j = k`, the loop performs `j` more
attempts and exits exhausted. -/
theorem runnerLoop_exhausts (genB : Nat → Except PyExc String)
    (verB : Nat → String → Except PyExc String) (entropy : Nat → Nat) (k : Nat)
    (hgen : ∀ n, ∃ t, genB n = Except.ok t)
    (hver : ∀ n t, ∃ msg, verB n t = Except.error (PyExc.tci msg)) :
    ∀ j rc g v : Nat, rc + j = k →
      runnerLoop genB verB entropy (k : Int) (j + 1) rc g v =
        ⟨RunResult.exhausted (k : Int), g + j, v + j⟩ := by
  intro j
  induction j with
  | zero =>
    intro rc g v hrc
    have : rc = k := by omega
    subst this
    simp [runnerLoop]
  | succ j ih =>
    intro rc g v hrc
    have hne : ¬ ((rc : Int) = (k : Int)) := by
      intro hh
      have : rc = k := by exact_mod_cast hh
      omega
    obtain ⟨t, hg⟩ := hgen (rc + 1)
    obtain ⟨msg, hv⟩ := hver (rc + 1) t
    rw [runnerLoop, if_neg hne]
    simp only [hg, hv]
    rw [ih (rc + 1) (g + 1) (v + 1) (by omega)]
    have h1 : g + 1 + j = g + (j + 1) := by omega
    have h2 : v + 1 + j = v + (j + 1) := by omega
    rw [h1, h2]

/-- Loop lemma: if attempts `rc+1 .. rc+j-1` are rejected with
`TestcaseInvalidError` and attempt `rc + j` generates `tc` which the
verifier accepts with answer `ans`, and the retry budget does not run out
before attempt `rc + j` (`rc + j ≤ retryLimit`, or `retryLimit` negative),
then the loop returns `(tc, ans)` after `j` more generator invocations and
`j` more verifier invocations. -/
theorem runnerLoop_succeeds (genB : Nat → Except PyExc String)
    (verB : Nat → String → Except PyExc String) (entropy : Nat → Nat)
    (retryLimit : Int) (tc ans : String) :
    ∀ j rc g v : Nat, 1 ≤ j →
      ((rc + j : Int) ≤ retryLimit ∨ retryLimit < 0) →
      (∀ n, rc + 1 ≤ n → n < rc + j →
        ∃ t msg, genB n = Except.ok t ∧ verB n t = Except.error (PyExc.tci msg)) →
      genB (rc + j) = Except.ok tc →
      verB (rc + j) tc = Except.ok ans →
      runnerLoop genB verB entropy retryLimit j rc g v =
        ⟨RunResult.success tc ans, g + j, v + j⟩ := by
  intro j
  induction j with
  | zero => intro rc g v h1; omega
  | succ j ih =>
    intro rc g v _ hbound hmid hg hv
    have hne : ¬ ((rc : Int) = retryLimit) := by
      rcases hbound with hb | hb
      · intro hh; omega
      · intro hh; omega
    cases j with
    | zero =>
      have hg1 : genB (rc + 1) = Except.ok tc := by simpa using hg
      have hv1 : verB (rc + 1) tc = Except.ok ans := by simpa using hv
      rw [runnerLoop, if_neg hne]
      simp only [hg1, hv1]
    | succ j =>
      obtain ⟨t, msg, hgm, hvm⟩ := hmid (rc + 1) (by omega) (by omega)
      rw [runnerLoop, if_neg hne]
      simp only [hgm, hvm]
      have hrec := ih (rc + 1) (g + 1) (v + 1) (by omega)
        (by rcases hbound with hb | hb
            · left; push_cast at hb ⊢; omega
            · right; exact hb)
        (by intro n hn1 hn2; exact hmid n (by omega) (by omega))
        (by rw [show rc + 1 + (j + 1) = rc + (j + 1 + 1) from by omega]; exact hg)
        (by rw [show rc + 1 + (j + 1) = rc + (j + 1 + 1) from by omega]; exact hv)
      rw [hrec]
      have h1 : g + 1 + (j + 1) = g + (j + 1 + 1) := by omega
      have h2 : v + 1 + (j + 1) = v + (j + 1 + 1) := by omega
      rw [h1, h2]

/-- A Python file-like stream as referenced through `sys`: the process's
original standard input (`sys.__stdin__`), its original standard output
(`sys.__stdout__`), or an in-memory `io.StringIO` buffer holding the given
contents (sol_dec.py). -/
inductive PyStream where
  | procStdin
  | procStdout
  | strIO (contents : String)
deriving DecidableEq

/-- The mutable stream bindings of the `sys` module: `sys.stdin` and
`sys.stdout`.  The immutable attributes `sys.__stdin__` and
`sys.__stdout__` are always `PyStream.procStdin` and
`PyStream.procStdout`. -/
structure Sys where
  stdin : PyStream
  stdout : PyStream
deriving DecidableEq

/-- The text readable from a stream: a `StringIO` yields its contents; the
process stdin yields the ambient process input `procInput`; the process
stdout is not readable (empty). -/
def streamContents (procInput : String) : PyStream → String
  | PyStream.strIO c => c
  | PyStream.procStdin => procInput
  | PyStream.procStdout => ""

/-- Embedding of the `inner` wrapper produced by `override_io`
(sol_dec.py, lines 54-94).  The wrapped callable is modelled as a function
from the contents of the stream bound to `sys.stdin` at call time to
either its (return value, printed text) or a raised exception.  `inner`
rebinds `sys.stdin` to a `StringIO` over `testcase` when one is given,
rebinds `sys.stdout` to a fresh `StringIO`, calls the solution, reads the
captured output, and in the `finally` block sets `sys.stdin :=
sys.__stdin__` and `sys.stdout := sys.__stdout__`; an exception from the
solution is re-raised after that restoration.  (The `TypeError` raised for
a non-callable solution or a non-string `testcase` cannot arise in this
typed model.) -/
def override_io_inner (sol : String → Except PyExc (Int × String))
    (testcase : Option String) (procInput : String) (s : Sys) :
    Except PyExc (Int × String) × Sys :=
  let s1 : Sys :=
    match testcase with
    | some t => { s with stdin := PyStream.strIO t }
    | none => s
  let s2 : Sys := { s1 with stdout := PyStream.strIO "" }
  match sol (streamContents procInput s2.stdin) with
  | Except.ok (ret, printed) =>
    (Except.ok (ret, printed), { stdin := PyStream.procStdin, stdout := PyStream.procStdout })
  | Except.error e =>
    (Except.error e, { stdin := PyStream.procStdin, stdout := PyStream.procStdout })

/-- The contents the wrapped callable reads: the `testcase` string when
one was supplied, otherwise whatever `sys.stdin` held before the call. -/
def effectiveInput (testcase : Option String) (procInput : String) (s : Sys) : String :=
  match testcase with
  | some t => t
  | none => streamContents procInput s.stdin

/-- Dropping a matched prefix from a character list: `some` of the suffix
when `pat` is a prefix, `none` otherwise. -/
def stripPrefixList : List Char → List Char → Option (List Char)
  | [], s => some s
  | _ :: _, [] => none
  | a :: as, b :: bs => if a == b then stripPrefixList as bs else none

/-- Substring containment on character lists, the model of Python's
`in` operator on strings. -/
def containsSubList (pat : List Char) : List Char → Bool
  | [] => (stripPrefixList pat []).isSome
  | c :: rest => (stripPrefixList pat (c :: rest)).isSome || containsSubList pat rest

/-- Replacement of every occurrence of `pat` by `repl`, the model of
Python's `str.replace`/format-field substitution, written with explicit
fuel so that it is structurally recursive and computable by the kernel;
called with `fuel = length of the subject`, which suffices for any
non-empty `pat`. -/
def replaceFuel (pat repl : List Char) : Nat → List Char → List Char
  | 0, s => s
  | _ + 1, [] => []
  | fuel + 1, c :: rest =>
    match stripPrefixList pat (c :: rest) with
    | some suffix => repl ++ replaceFuel pat repl fuel suffix
    | none => c :: replaceFuel pat repl fuel rest

/-- Splitting a character list at spaces, the model of `str.split` as the
scenario-B callable uses it on its single input line. -/
def splitTokens : List Char → List Char → List (List Char)
  | [], acc => [acc.reverse]
  | c :: rest, acc =>
    if c == ' ' then acc.reverse :: splitTokens rest []
    else splitTokens rest (c :: acc)

/-- Parsing a non-empty list of decimal digits, the model of Python's
`int` on a digit string. -/
def parseNatList (s : List Char) : Option Nat :=
  match s with
  | [] => none
  | _ :: _ =>
    s.foldl (fun acc c =>
      acc.bind fun a => if c.isDigit then some (a * 10 + (c.toNat - 48)) else none)
      (some 0)

/-- Parsing an optionally negated decimal integer token. -/
def parseIntList (s : List Char) : Option Int :=
  match s with
  | '-' :: rest => (parseNatList rest).map (fun n => -(n : Int))
  | _ => (parseNatList s).map (fun n => (n : Int))

/-- Scenario-B solution (spec §8): reads two whitespace-separated integers
from standard input and prints their sum; its return value is the sum and
its printed output is the sum followed by a newline. -/
def sumSolution (input : String) : Except PyExc (Int × String) :=
  match (splitTokens input.data []).map parseIntList with
  | [some a, some b] => Except.ok (a + b, toString (a + b) ++ "\n")
  | _ => Except.error (PyExc.other "ValueError")

/-- Default input filename pattern of `file_utils.py`
(`DEFAULT_IN_PATTERN`): the index placeholder followed by `.in`. -/
def DEFAULT_IN_PATTERN : String := "\x7bindex\x7d.in"

/-- Default output filename pattern of `file_utils.py`
(`DEFAULT_OUT_PATTERN`): the index placeholder followed by `.out`. -/
def DEFAULT_OUT_PATTERN : String := "\x7bindex\x7d.out"

/-- Whether the pattern string contains the literal index placeholder, as
tested by the Python substring check on line 57 of file_utils.py. -/
def hasIndexPlaceholder (p : String) : Bool :=
  containsSubList "\x7bindex\x7d".data p.data

/-- Modelled from the spec for `str.format`: substituting the index into a
filename template.  Python's `pattern.format(index=idx)` (standard
library) replaces each index replacement field with the decimal rendering
of `idx`; the model replaces every occurrence of the literal placeholder,
which agrees with `str.format` on templates whose only replacement fields
are plain index fields - the only templates this development reasons
about. -/
def formatIndex (p : String) (idx : Int) : String :=
  String.mk (replaceFuel "\x7bindex\x7d".data (toString idx).data p.data.length p.data)

/-- The behaviour of `write_testcases` observable through the filesystem
and the warning machinery: whether `warn` was called, and the ordered
`(filename, contents)` writes performed in the target folder. -/
structure WriteTestcasesResult where
  warned : Bool
  writes : List (String × String)
deriving DecidableEq

/-- The write loop of `write_testcases` (file_utils.py, lines 74-85): for
each `(input_data, expected)` pair, in enumeration order starting at
`start`, write the input file then the output file, with names obtained by
formatting the (already validated) patterns. -/
def writeLoop (inP outP : String) : Int → List (String × String) → List (String × String)
  | _, [] => []
  | idx, (input_data, expected) :: rest =>
    (formatIndex inP idx, input_data) :: (formatIndex outP idx, expected) ::
      writeLoop inP outP (idx + 1) rest

/-- Embedding of `write_testcases` (file_utils.py, lines 19-85).  Folder
resolution and directory creation are filesystem effects outside the
model; filenames are relative to the target folder.  The pattern
validation is exactly the source's: if either pattern lacks the index
placeholder, warn and fall back to the defaults; otherwise, if the two
pattern strings are equal, warn and fall back to the defaults; otherwise
use them as given. -/
def write_testcases (testcases : List (String × String))
    (in_pattern out_pattern : String) (start : Int) : WriteTestcasesResult :=
  let checked : Bool × String × String :=
    if !(hasIndexPlaceholder in_pattern) || !(hasIndexPlaceholder out_pattern) then
      (true, DEFAULT_IN_PATTERN, DEFAULT_OUT_PATTERN)
    else if in_pattern == out_pattern then
      (true, DEFAULT_IN_PATTERN, DEFAULT_OUT_PATTERN)
    else
      (false, in_pattern, out_pattern)
  { warned := checked.1, writes := writeLoop checked.2.1 checked.2.2 start testcases }

/-- The final contents of a file after a sequence of writes: the last
write to that name wins (`Path.write_text` truncates). -/
def finalContents (writes : List (String × String)) (name : String) : Option String :=
  writes.foldl (fun acc w => if w.1 == name then some w.2 else acc) none

/-- Claim C4: for every truthy condition, `assert_testcase(condition, msg)`
returns without raising; for every falsy condition it raises
`TestcaseInvalidError` whose message contains `msg` together with a
rendering of the failed source condition, chaining the optional cause
exception when given. -/
theorem claim_C4 (statement : Bool) (msg caller_statement : String) (from_ : Option PyExc) :
    (statement = true →
      assert_testcase statement msg caller_statement from_ = Except.ok ()) ∧
    (statement = false →
      ∃ err : TestcaseInvalidError,
        assert_testcase statement msg caller_statement from_ = Except.error err ∧
        (∃ a b : String, err.message = a ++ msg ++ b) ∧
        (∃ a b : String, err.message = a ++ caller_statement ++ b) ∧
        err.cause = from_) := by
  constructor
  · intro h
    subst h
    rfl
  · intro h
    subst h
    refine ⟨_, rfl, ⟨"", " <- Assertion failed at: \x27" ++ caller_statement ++ "\x27", ?_⟩,
      ⟨msg ++ " <- Assertion failed at: \x27", "\x27", ?_⟩, rfl⟩
    · simp [assert_testcase, String.append_assoc]
    · simp [assert_testcase, String.append_assoc]

/-- Witness for C4 at concrete inputs: a true assertion is a no-op, and a
false assertion raises a `TestcaseInvalidError` whose message embeds both
the caller message and the call-site condition text. -/
theorem claim_C4_witness :
    (assert_testcase true "n is too large" "assert_testcase(n <= 100)" none = Except.ok ()) ∧
    (∃ err : TestcaseInvalidError,
      assert_testcase false "n is too large" "assert_testcase(n <= 100)" none =
        Except.error err ∧
      (∃ a b : String, err.message = a ++ "n is too large" ++ b) ∧
      (∃ a b : String, err.message = a ++ "assert_testcase(n <= 100)" ++ b) ∧
      err.cause = none) :=
  ⟨(claim_C4 true "n is too large" "assert_testcase(n <= 100)" none).1 rfl,
    (claim_C4 false "n is too large" "assert_testcase(n <= 100)" none).2 rfl⟩

/-- Claim C5: two `ReproducibleRandom` instances constructed with the same
seed produce identical draw sequences, and after arbitrary
post-construction operations, restoring `initial_state` via
`back_to_initial` reproduces the original post-construction sequence
exactly. -/
theorem claim_C5 (s : Int) (r1 r2 : ReproducibleRandom)
    (h1 : r1 = ReproducibleRandom.new s) (h2 : r2 = ReproducibleRandom.new s)
    (ops : List ROp) (n : Nat) :
    drawSeq r1 n = drawSeq r2 n ∧
    drawSeq ((applyOps r1 ops).back_to_initial) n = drawSeq r1 n := by
  subst h1
  subst h2
  refine ⟨rfl, drawSeq_eq_of_state n _ _ ?_⟩
  show ((applyOps (ReproducibleRandom.new s) ops).back_to_initial).state =
    (ReproducibleRandom.new s).state
  rw [show ∀ r : ReproducibleRandom, r.back_to_initial.state = r.initial_state
      from fun r => rfl]
  rw [applyOps_initial_state]
  rfl

/-- Witness for C5 at a concrete seed and operation sequence: seed 42,
two draws then a restore, comparing the next three outputs. -/
theorem claim_C5_witness :
    drawSeq (ReproducibleRandom.new 42) 3 = drawSeq (ReproducibleRandom.new 42) 3 ∧
    drawSeq ((applyOps (ReproducibleRandom.new 42) [ROp.draw, ROp.draw]).back_to_initial) 3 =
      drawSeq (ReproducibleRandom.new 42) 3 :=
  claim_C5 42 (ReproducibleRandom.new 42) (ReproducibleRandom.new 42) rfl rfl
    [ROp.draw, ROp.draw] 3

/-- Claim C6: `initial_state` is captured once immediately after
construction (it equals the post-construction generator state, for both
the seeded and the entropy-initialised constructor) and is never modified
afterwards by any sequence of draws or restores. -/
theorem claim_C6 (s : Int) (e : Nat) (r : ReproducibleRandom) (ops : List ROp) :
    (ReproducibleRandom.new s).initial_state = (ReproducibleRandom.new s).state ∧
    (ReproducibleRandom.newUnseeded e).initial_state = (ReproducibleRandom.newUnseeded e).state ∧
    (applyOps r ops).initial_state = r.initial_state :=
  ⟨rfl, rfl, applyOps_initial_state r ops⟩

/-- Claim C7: with `retry_limit = 0`, `run(index)` raises the exhaustion
error immediately, with zero generator invocations and zero verifier
invocations, for every generator and every verifier. -/
theorem claim_C7 (genB : Nat → Except PyExc String)
    (verB : Nat → String → Except PyExc String) (entropy : Nat → Nat) (fuel : Nat) :
    runner genB verB entropy 0 (fuel + 1) = ⟨RunResult.exhausted 0, 0, 0⟩ := by
  simp [runner, runnerLoop]

/-- A generator behaviour that produces the same test-case text on every
attempt (spec §8 scenario A's generator shape). -/
def genConst : Nat → Except PyExc String := fun _ => Except.ok "5 3"

/-- A verifier behaviour that rejects every attempt with
`TestcaseInvalidError`. -/
def verInvalid : Nat → String → Except PyExc String :=
  fun _ _ => Except.error (PyExc.tci "testcase rejected")

/-- A verifier behaviour that raises a non-`TestcaseInvalidError`
exception (`ValueError`) on every attempt. -/
def verValueError : Nat → String → Except PyExc String :=
  fun _ _ => Except.error (PyExc.other "ValueError")

/-- A verifier behaviour that rejects attempt 1 with
`TestcaseInvalidError` and accepts from attempt 2 on. -/
def verSecond : Nat → String → Except PyExc String :=
  fun n _ => if n = 1 then Except.error (PyExc.tci "testcase rejected") else Except.ok "5"

/-- A concrete entropy schedule for the per-attempt unseeded
`ReproducibleRandom()` constructions. -/
def entropyId : Nat → Nat := fun n => n

/-- Counterexample to claim C1 as stated: with `retry_limit = 1` and a
verifier that raises `TestcaseInvalidError` on every attempt, `run(index)`
performs 1 generator invocation before raising the exhaustion error, not
`retry_limit + 1 = 2`: the loop guard `retry_count != retry_limit` admits
only `retry_limit` total attempts. -/
theorem claim_C1_counterexample :
    runner genConst verInvalid entropyId 1 2 =
      ⟨RunResult.exhausted 1, 1, 1⟩ ∧ (1 : Nat) ≠ 1 + 1 := by
  constructor
  · rfl
  · decide

/-- Claim C1 (amended): for every `retry_limit = k ≥ 0` and every
generator/verifier pair in which the generator always produces a test case
and the verifier raises `TestcaseInvalidError` on every attempt,
`run(index)` performs exactly `k` total generator invocations (and `k`
verifier invocations) and then raises the exhaustion error, whose message
reports `k` attempts. -/
theorem claim_C1 (k : Nat) (genB : Nat → Except PyExc String)
    (verB : Nat → String → Except PyExc String) (entropy : Nat → Nat)
    (hgen : ∀ n, ∃ t, genB n = Except.ok t)
    (hver : ∀ n t, ∃ msg, verB n t = Except.error (PyExc.tci msg)) :
    runner genB verB entropy (k : Int) (k + 1) = ⟨RunResult.exhausted (k : Int), k, k⟩ := by
  simpa [runner] using runnerLoop_exhausts genB verB entropy k hgen hver k 0 0 0 (by omega)

/-- Witness for C1 at `retry_limit = 3`: exactly 3 generator invocations,
then exhaustion. -/
theorem claim_C1_witness :
    runner genConst verInvalid entropyId 3 4 = ⟨RunResult.exhausted 3, 3, 3⟩ :=
  claim_C1 3 genConst verInvalid entropyId
    (fun _ => ⟨"5 3", rfl⟩) (fun _ _ => ⟨"testcase rejected", rfl⟩)

/-- Counterexample to claim C2 as stated: the property is claimed for
every `retry_limit`, but with `retry_limit = 0` the loop body never runs,
so even against a verifier that raises `ValueError` on every attempt the
runner performs 0 generator invocations (not 1) and raises the exhaustion
error instead of a `GeneratorRuntimeError`. -/
theorem claim_C2_counterexample :
    runner genConst verValueError entropyId 0 1 =
      ⟨RunResult.exhausted 0, 0, 0⟩ ∧ (0 : Nat) ≠ 1 := by
  constructor
  · rfl
  · decide

/-- Claim C2 (amended): for every `retry_limit` other than 0, if the
generator or the verifier raises a non-`TestcaseInvalidError` exception on
the first attempt, `run(index)` performs exactly 1 generator invocation
and raises a `GeneratorRuntimeError` built for attempt 1 and the attempt's
random `initial_state`, with the original exception chained as cause and
no further retries; the error message includes the attempt number and that
`initial_state`. -/
theorem claim_C2 (genB : Nat → Except PyExc String)
    (verB : Nat → String → Except PyExc String) (entropy : Nat → Nat)
    (retryLimit : Int) (fuel : Nat) (eName : String)
    (hL : retryLimit ≠ 0)
    (hfirst : genB 1 = Except.error (PyExc.other eName) ∨
      (∃ t, genB 1 = Except.ok t ∧ verB 1 t = Except.error (PyExc.other eName))) :
    (∃ v, runner genB verB entropy retryLimit (fuel + 1) =
      ⟨RunResult.generatorRuntimeError
          (generatorRuntimeErrorMessage 1 (entropy 1)) (entropy 1) (PyExc.other eName),
        1, v⟩) ∧
    (∃ a b : String,
      generatorRuntimeErrorMessage 1 (entropy 1) = a ++ toString (1 : Nat) ++ b) ∧
    (∃ a b : String,
      generatorRuntimeErrorMessage 1 (entropy 1) = a ++ toString (entropy 1) ++ b) := by
  have hne : ¬ (((0 : Nat) : Int) = retryLimit) := by
    intro hh
    exact hL hh.symm
  refine ⟨?_, ?_, ?_⟩
  · rcases hfirst with hg | ⟨t, hg, hv⟩
    · refine ⟨0, ?_⟩
      rw [runner, runnerLoop, if_neg hne]
      simp only [hg]
      rfl
    · refine ⟨1, ?_⟩
      rw [runner, runnerLoop, if_neg hne]
      simp only [hg, hv]
      rfl
  · exact ⟨"Unexpected error during generation/verification on attempt ",
      ". Random generator initial state = " ++ toString (entropy 1),
      by simp [generatorRuntimeErrorMessage, String.append_assoc]⟩
  · exact ⟨"Unexpected error during generation/verification on attempt " ++
      toString (1 : Nat) ++ ". Random generator initial state = ", "",
      by simp [generatorRuntimeErrorMessage, String.append_assoc]⟩

/-- Witness for C2 at the default unbounded `retry_limit = -1` with a
verifier raising `ValueError` on the first attempt. -/
theorem claim_C2_witness :
    (∃ v, runner genConst verValueError entropyId (-1) (0 + 1) =
      ⟨RunResult.generatorRuntimeError
          (generatorRuntimeErrorMessage 1 (entropyId 1)) (entropyId 1)
          (PyExc.other "ValueError"),
        1, v⟩) ∧
    (∃ a b : String,
      generatorRuntimeErrorMessage 1 (entropyId 1) = a ++ toString (1 : Nat) ++ b) ∧
    (∃ a b : String,
      generatorRuntimeErrorMessage 1 (entropyId 1) = a ++ toString (entropyId 1) ++ b) :=
  claim_C2 genConst verValueError entropyId (-1) 0 "ValueError" (by decide)
    (Or.inr ⟨"5 3", rfl, rfl⟩)

/-- Counterexample to claim C3 as stated: take `retry_limit = 1` and a
generator/verifier pair whose first attempt raises `TestcaseInvalidError`
and whose second attempt succeeds, i.e. success on attempt
`m = 2 ≤ retry_limit + 1`.  The runner nevertheless exhausts after the
single permitted attempt and never reaches attempt 2. -/
theorem claim_C3_counterexample :
    runner genConst verSecond entropyId 1 2 = ⟨RunResult.exhausted 1, 1, 1⟩ ∧
    ((2 : Int) ≤ 1 + 1) ∧
    RunResult.exhausted 1 ≠ RunResult.success "5 3" "5" := by
  refine ⟨?_, by decide, by decide⟩
  rfl

/-- Claim C3 (amended): if the generator and verifier first succeed on
attempt `m ≥ 1` with `m ≤ retry_limit` (or `retry_limit` negative, i.e.
unbounded), the first `m - 1` attempts raising `TestcaseInvalidError`,
then `run(index)` returns the pair produced on attempt `m` after exactly
`m` generator invocations and `m` verifier invocations and no more. -/
theorem claim_C3 (genB : Nat → Except PyExc String)
    (verB : Nat → String → Except PyExc String) (entropy : Nat → Nat)
    (retryLimit : Int) (m : Nat) (tc ans : String)
    (hm : 1 ≤ m)
    (hbound : (m : Int) ≤ retryLimit ∨ retryLimit < 0)
    (hmid : ∀ n, 1 ≤ n → n < m →
      ∃ t msg, genB n = Except.ok t ∧ verB n t = Except.error (PyExc.tci msg))
    (hg : genB m = Except.ok tc) (hv : verB m tc = Except.ok ans) :
    runner genB verB entropy retryLimit m = ⟨RunResult.success tc ans, m, m⟩ := by
  simpa [runner] using runnerLoop_succeeds genB verB entropy retryLimit tc ans m 0 0 0 hm
    (by simpa using hbound) (by simpa using hmid) (by simpa using hg) (by simpa using hv)

/-- Witness for C3: success on attempt 2 with `retry_limit = 2`, returning
the attempt-2 pair after exactly 2 generator and 2 verifier invocations. -/
theorem claim_C3_witness :
    runner genConst verSecond entropyId 2 2 = ⟨RunResult.success "5 3" "5", 2, 2⟩ :=
  claim_C3 genConst verSecond entropyId 2 2 "5 3" "5" (by decide) (by norm_num)
    (by
      intro n h1 h2
      have hn : n = 1 := by omega
      subst hn
      exact ⟨"5 3", "testcase rejected", rfl, rfl⟩)
    rfl rfl

/-- Counterexample to claim C8 as stated: the claim requires the streams
active before the call to be restored on every exit path, but the
`finally` block restores `sys.__stdin__`/`sys.__stdout__`, the process's
original streams.  Calling the adapter (no `testcase`, callable returning
normally) while `sys.stdin` is bound to a `StringIO` leaves `sys.stdin`
bound to the process stdin afterwards, not to the stream active before
the call. -/
theorem claim_C8_counterexample :
    (override_io_inner (fun _ => Except.ok (0, "")) none ""
        { stdin := PyStream.strIO "pending", stdout := PyStream.procStdout }).1 =
      Except.ok (0, "") ∧
    (override_io_inner (fun _ => Except.ok (0, "")) none ""
        { stdin := PyStream.strIO "pending", stdout := PyStream.procStdout }).2.stdin ≠
      PyStream.strIO "pending" := by
  constructor
  · rfl
  · decide

/-- Claim C8 (amended): on every exit path of the solution-execution
adapter - normal return or exception from the wrapped callable - the
process's original standard streams (`sys.__stdin__`, `sys.__stdout__`)
are bound to `sys.stdin`/`sys.stdout`, and any exception raised by the
callable is propagated to the caller after that restoration.  (When the
streams active before the call were already redirected elsewhere, those
redirections are not reinstated.) -/
theorem claim_C8 (sol : String → Except PyExc (Int × String))
    (testcase : Option String) (procInput : String) (s : Sys) :
    (override_io_inner sol testcase procInput s).2 =
      { stdin := PyStream.procStdin, stdout := PyStream.procStdout } ∧
    (∀ e, sol (effectiveInput testcase procInput s) = Except.error e →
      (override_io_inner sol testcase procInput s).1 = Except.error e) := by
  cases testcase with
  | none =>
    constructor
    · simp only [override_io_inner]
      rcases hsol : sol (streamContents procInput s.stdin) with e | val
      · simp [hsol]
      · obtain ⟨ret, printed⟩ := val
        simp [hsol]
    · intro e he
      simp only [effectiveInput] at he
      simp [override_io_inner, he]
  | some t =>
    constructor
    · simp only [override_io_inner]
      rcases hsol : sol (streamContents procInput (PyStream.strIO t)) with e | val
      · simp [hsol]
      · obtain ⟨ret, printed⟩ := val
        simp [hsol]
    · intro e he
      simp only [effectiveInput] at he
      simp [override_io_inner, streamContents, he]

/-- Witness for C8: a callable raising `ZeroDivisionError` has its
exception propagated while both streams end bound to the process
originals. -/
theorem claim_C8_witness :
    (override_io_inner (fun _ => Except.error (PyExc.other "ZeroDivisionError"))
        (some "2 4") "" { stdin := PyStream.procStdin, stdout := PyStream.procStdout }).2 =
      { stdin := PyStream.procStdin, stdout := PyStream.procStdout } ∧
    (override_io_inner (fun _ => Except.error (PyExc.other "ZeroDivisionError"))
        (some "2 4") "" { stdin := PyStream.procStdin, stdout := PyStream.procStdout }).1 =
      Except.error (PyExc.other "ZeroDivisionError") :=
  ⟨(claim_C8 (fun _ => Except.error (PyExc.other "ZeroDivisionError")) (some "2 4") ""
      { stdin := PyStream.procStdin, stdout := PyStream.procStdout }).1,
    (claim_C8 (fun _ => Except.error (PyExc.other "ZeroDivisionError")) (some "2 4") ""
      { stdin := PyStream.procStdin, stdout := PyStream.procStdout }).2
      (PyExc.other "ZeroDivisionError") rfl⟩

/-- Claim C9: calling the adapter on a callable that reads two integers
and prints their sum, with `testcase = "2 4"`, binds standard input to
that string, captures standard output, and returns `(6, "6\n")` - for any
prior stream bindings and any ambient process input. -/
theorem claim_C9 (procInput : String) (s : Sys) :
    override_io_inner sumSolution (some "2 4") procInput s =
      (Except.ok (6, "6\n"),
        { stdin := PyStream.procStdin, stdout := PyStream.procStdout }) := rfl

/-- Counterexample to claim C10 as stated: the templates `1{index}` and
`{index}1` (written here with escaped braces) both contain the
placeholder, are distinct strings, and resolve to the identical filename
`11` at index 1 - yet the writer does not warn, does not fall back to the
defaults, and silently overwrites the input file with the output text:
the source only compares the two pattern strings for equality, never
their resolved filenames. -/
theorem claim_C10_counterexample :
    (write_testcases [("A", "B")] "1\x7bindex\x7d" "\x7bindex\x7d1" 1).warned = false ∧
    formatIndex "1\x7bindex\x7d" 1 = formatIndex "\x7bindex\x7d1" 1 ∧
    (write_testcases [("A", "B")] "1\x7bindex\x7d" "\x7bindex\x7d1" 1).writes =
      [("11", "A"), ("11", "B")] ∧
    finalContents (write_testcases [("A", "B")] "1\x7bindex\x7d" "\x7bindex\x7d1" 1).writes
      (formatIndex "1\x7bindex\x7d" 1) = some "B" := by
  refine ⟨rfl, rfl, rfl, rfl⟩

/-- Claim C10 (amended): if either filename template lacks the index
placeholder, or the two template strings are equal, the bulk writer warns
and falls back to the default templates, and still writes each
(input, output) pair to the sequentially indexed default filenames;
distinct template strings that merely resolve to colliding filenames are
not detected. -/
theorem claim_C10 (testcases : List (String × String))
    (in_pattern out_pattern : String) (start : Int)
    (h : hasIndexPlaceholder in_pattern = false ∨ hasIndexPlaceholder out_pattern = false ∨
      in_pattern = out_pattern) :
    write_testcases testcases in_pattern out_pattern start =
      { warned := true,
        writes := writeLoop DEFAULT_IN_PATTERN DEFAULT_OUT_PATTERN start testcases } := by
  rcases h with h | h | h
  · simp [write_testcases, h]
  · simp [write_testcases, h]
  · subst h
    by_cases hh : hasIndexPlaceholder in_pattern
    · simp [write_testcases, hh]
    · simp [write_testcases, hh]

/-- Witness for C10 on spec §8 scenario D: `in_pattern = "x.in"` lacks the
placeholder, so the writer warns and produces the default-indexed files. -/
theorem claim_C10_witness :
    write_testcases [("1\n", "2\n")] "x.in" DEFAULT_OUT_PATTERN 1 =
      { warned := true,
        writes := writeLoop DEFAULT_IN_PATTERN DEFAULT_OUT_PATTERN 1 [("1\n", "2\n")] } :=
  claim_C10 [("1\n", "2\n")] "x.in" DEFAULT_OUT_PATTERN 1 (Or.inl (by decide))

end GeneratorHelper
